import Mathlib

/-!
Verification of the multi-tenant MQTT/WebSocket event-relay core of
`pms_map_service` (files `app/mqtt_manager.py` and `app/main.py`),
as a shallow embedding in Lean.

Python dicts are modelled as association lists over `String` keys,
Python sets of sockets as duplicate-free `List Nat`, JSON values by the
inductive `JVal`, and each method body that runs under `async with self.lock`
(and contains no lock-releasing await) as one atomic state transition.
-/

/-! ## Association-list model of a Python dict -/

/-- Lookup `d.get(k)` in a dict modelled as an association list. -/
def alookup {α : Type} (k : String) : List (String × α) → Option α
  | [] => none
  | p :: rest => if p.1 = k then some p.2 else alookup k rest

/-- `del d[k]` / `d.pop(k)`: remove the key (all occurrences; keys are unique
in every state the code builds, so this is exactly dict deletion). -/
def alerase {α : Type} (k : String) (l : List (String × α)) : List (String × α) :=
  l.filter (fun p => !(p.1 == k))

/-- `d[k] = v`: update the dict.  Entry order is irrelevant here because no
code under verification iterates a dict; all observations go through
`alookup`. -/
def alset {α : Type} (k : String) (v : α) (l : List (String × α)) : List (String × α) :=
  (k, v) :: alerase k l

theorem alookup_nil {α : Type} (k : String) : alookup k ([] : List (String × α)) = none := rfl

theorem alookup_cons {α : Type} (k : String) (p : String × α) (l : List (String × α)) :
    alookup k (p :: l) = if p.1 = k then some p.2 else alookup k l := rfl

theorem alookup_alerase_self {α : Type} (k : String) (l : List (String × α)) :
    alookup k (alerase k l) = none := by
  induction l with
  | nil => rfl
  | cons p rest ih =>
      by_cases h : p.1 = k
      · simpa [alerase, List.filter_cons, h, alookup] using ih
      · simpa [alerase, List.filter_cons, h, alookup] using ih

theorem alookup_alerase_ne {α : Type} {k k' : String} (h : k' ≠ k) (l : List (String × α)) :
    alookup k' (alerase k l) = alookup k' l := by
  induction l with
  | nil => rfl
  | cons p rest ih =>
      by_cases hp : p.1 = k
      · simp only [alerase] at ih
        simp [alerase, List.filter_cons, hp, alookup, Ne.symm h, ih]
      · simp only [alerase] at ih
        simp [alerase, List.filter_cons, hp, alookup, ih]

theorem alookup_alset_self {α : Type} (k : String) (v : α) (l : List (String × α)) :
    alookup k (alset k v l) = some v := by
  simp [alset, alookup]

theorem alookup_alset_ne {α : Type} {k k' : String} (h : k' ≠ k) (v : α)
    (l : List (String × α)) :
    alookup k' (alset k v l) = alookup k' l := by
  simp [alset, alookup, Ne.symm h, alookup_alerase_ne h]

/-! ## JSON values -/

/-- JSON-like Python value, as produced by `json.loads` and consumed by
`json.dumps` (the subset relevant to the relay: scalars and objects). -/
inductive JVal : Type where
  | null : JVal
  | bool (b : Bool) : JVal
  | num (n : Int) : JVal
  | str (s : String) : JVal
  | obj (fields : List (String × JVal)) : JVal

/-- `data.get(k)` on a JSON object; non-objects have no `.get` (the relay only
ever calls it on decoded dict payloads). -/
def JVal.get (data : JVal) (k : String) : Option JVal :=
  match data with
  | JVal.obj fields => alookup k fields
  | _ => none

/-! ## Inbound broker messages and the router callback (main.py 63-71) -/

/-- An observable action on the socket-hub layer. -/
inductive Effect : Type where
  | wsBroadcast (user_key : String) (message : JVal) : Effect

/-- A Python coroutine object: a suspended computation whose effects happen
only when an event loop actually runs it. -/
structure Coroutine : Type where
  run : List Effect

/-- One inbound paho MQTT message, represented by the outcome of
`msg.payload.decode("utf-8")` followed by `json.loads` (`decoded = some v` on
success, `none` when either step raises), together with `msg.payload.hex()`. -/
structure MqttMsg : Type where
  decoded : Option JVal
  payloadHex : String

/-- The `data` dict built by `on_mqtt_message_callback` (main.py 64-68): the
decoded JSON payload, or `{"raw_payload": msg.payload.hex()}` when decoding
raises `UnicodeDecodeError`/`JSONDecodeError`. -/
def full_message_data (msg : MqttMsg) : JVal :=
  match msg.decoded with
  | some d => d
  | none => JVal.obj [("raw_payload", JVal.str msg.payloadHex)]

/-- `async def on_mqtt_message_callback(user_key, msg)` (main.py 63-71), as the
coroutine it evaluates to: wrap the payload as
`{"type": "mqtt", "data": data}` and broadcast it to the tenant's sockets.
No other transformation is applied to the payload. -/
def on_mqtt_message_callback (user_key : String) (msg : MqttMsg) : Coroutine :=
  ⟨[Effect.wsBroadcast user_key
      (JVal.obj [("type", JVal.str "mqtt"), ("data", full_message_data msg)])]⟩

/-- What a callback invoked on a foreign (non-event-loop) thread hands over to
the rest of the system: effects it performs synchronously, and coroutines it
submits to the event loop or to a queue drained by it. -/
structure ThreadHandoff : Type where
  performed : List Effect
  scheduled : List Coroutine

/-- The `on_message` lambda installed by `MqttClientWrapper.__init__`
(mqtt_manager.py line 20), executed on the paho network thread.  It calls the
`async def` callback synchronously, which in Python merely constructs a
coroutine object; the object is handed back to paho and discarded — it is
never awaited, never submitted via `run_coroutine_threadsafe`, and never
enqueued onto any queue.  So nothing is performed and nothing is scheduled. -/
def paho_on_message (user_key : String) (msg : MqttMsg) : ThreadHandoff :=
  let _coroutine_object := on_mqtt_message_callback user_key msg
  ⟨[], []⟩

/-! ## Broker configuration (the shape `MqttClientWrapper` reads) -/

/-- One tenant's MQTT settings, as the wrapper consumes them
(mqtt_manager.py 26-31, 48-55).  `Option String` fields model keys that may be
absent (`None` in Python); `some ""` is a present-but-falsy value. -/
structure BrokerConfig : Type where
  host : String
  port : Nat
  username : Option String
  password : Option String
  subscribe_topic : Option String
  publish_topic : Option String
  topics_by_type : List (String × String)
deriving DecidableEq

/-- Python truthiness of an optional string: `None` and `""` are falsy. -/
def pyTruthy : Option String → Bool
  | none => false
  | some s => !(s == "")

/-- Python `a or b` on optional strings: `a` when truthy, else `b`. -/
def pyOr (a b : Option String) : Option String :=
  if pyTruthy a then a else b

/-- `config.get("topics_by_type", {}).get(data.get("type"))`
(mqtt_manager.py 53): the inner `.get` succeeds only when `data.get("type")`
is a string key present in the per-type topic map (a non-string or missing
`type` matches no key of the JSON-derived dict). -/
def topics_by_type_get (m : List (String × String)) : Option JVal → Option String
  | some (JVal.str s) => alookup s m
  | _ => none

/-- `MqttClientWrapper.publish(data)` (mqtt_manager.py 48-55): `none` when
nothing is sent, otherwise `some (topic, payload)` where `payload` is the
event handed to `json.dumps` and sent verbatim. -/
def MqttClientWrapper.publish (is_connected : Bool) (config : BrokerConfig)
    (data : JVal) : Option (String × JVal) :=
  if is_connected = false then none
  else
    let topic := pyOr (topics_by_type_get config.topics_by_type (data.get "type"))
      config.publish_topic
    if pyTruthy topic then
      match topic with
      | some t => some (t, data)
      | none => none
    else none

/-! ## Module name resolution in app.mqtt_manager (for C2) -/

/-- A Python exception observable from `ConnectionManager.__init__`. -/
inductive PyExc : Type where
  | nameError (name : String) : PyExc
deriving DecidableEq

/-- Global names bound in module `app.mqtt_manager`: its imports
(mqtt_manager.py 1-5: `json`, `logging`, `Dict`/`Any`/`Callable` from typing,
`paho.mqtt.client as mqtt`) and its module-level definitions. -/
def mqttManagerModuleGlobals : List String :=
  ["json", "logging", "Dict", "Any", "Callable", "mqtt",
   "logger", "CONFIG_FILE", "MqttClientWrapper", "ConnectionManager"]

/-- The Python builtins referenced anywhere in app.mqtt_manager. -/
def pythonBuiltinNames : List String :=
  ["open", "FileNotFoundError", "IOError", "Exception"]

/-- Resolution of a global name referenced from code in app.mqtt_manager:
module globals, then builtins, else `NameError`. -/
def resolveGlobal (n : String) : Except PyExc Unit :=
  if n ∈ mqttManagerModuleGlobals then Except.ok ()
  else if n ∈ pythonBuiltinNames then Except.ok ()
  else Except.error (PyExc.nameError n)

/-! ## ConnectionManager as a state machine (mqtt_manager.py 58-132)

Each method body holds `self.lock` for its whole duration and contains no
await that yields while depending on shared state (`connect()` is synchronous
paho I/O), so each method is one atomic transition.  `MqttClientWrapper`
instances are tracked in a ghost list `wrappers`, each with a unique ghost id,
so that "at most one live link" is expressible about every wrapper ever
constructed, not only the one currently stored. -/

/-- One `MqttClientWrapper` instance: ghost id, its `user_key`, and its
`is_connected` flag. -/
structure Wrapper : Type where
  id : Nat
  user_key : String
  is_connected : Bool
deriving DecidableEq

/-- `ConnectionManager` state.  `configs` is `self.configs`, `clients` maps a
user key to the ghost id of the stored wrapper (`self.clients`); `wrappers`,
`nextId` and `connectAttempts` are ghost instrumentation (every wrapper ever
constructed, the id supply, and the number of underlying `connect()` calls). -/
structure MgrState : Type where
  configs : List (String × BrokerConfig)
  clients : List (String × Nat)
  wrappers : List Wrapper
  nextId : Nat
  connectAttempts : Nat
deriving DecidableEq

/-- The connection flag of the wrapper with ghost id `id`. -/
def wrapperIsConnected (ws : List Wrapper) (id : Nat) : Bool :=
  match ws.find? (fun w => w.id == id) with
  | some w => w.is_connected
  | none => false

/-- The guard of `ensure_connection` (mqtt_manager.py 110):
`user_key in self.clients and self.clients[user_key].is_connected`. -/
def connectedClient (s : MgrState) (k : String) : Bool :=
  match alookup k s.clients with
  | some id => wrapperIsConnected s.wrappers id
  | none => false

/-- `ConnectionManager.ensure_connection` (mqtt_manager.py 107-121) as one
atomic transition.  `ok` is the outcome of the underlying
`client_wrapper.connect()` network attempt, when one is made: on success the
wrapper is stored under the user key; on failure `connect()` leaves
`is_connected = False`, raises, and the `except` swallows the error, so the
wrapper is not stored. -/
def ensure_connection (ok : Bool) (k : String) (s : MgrState) : MgrState :=
  if connectedClient s k then s
  else
    match alookup k s.configs with
    | none => s
    | some _cfg =>
        { configs := s.configs
          clients := if ok then alset k s.nextId s.clients else s.clients
          wrappers := ⟨s.nextId, k, ok⟩ :: s.wrappers
          nextId := s.nextId + 1
          connectAttempts := s.connectAttempts + 1 }

/-- `MqttClientWrapper.disconnect` (mqtt_manager.py 40-46) applied to the
wrapper with ghost id `id`: its flag becomes false (already-false is a no-op
with the same result). -/
def disconnectWrapper (id : Nat) (ws : List Wrapper) : List Wrapper :=
  ws.map (fun w => if w.id = id then ⟨w.id, w.user_key, false⟩ else w)

/-- `ConnectionManager.disconnect_user` (mqtt_manager.py 123-128) as one
atomic transition: pop the user's wrapper, if any, and disconnect it. -/
def disconnect_user (k : String) (s : MgrState) : MgrState :=
  match alookup k s.clients with
  | none => s
  | some id =>
      { s with clients := alerase k s.clients
               wrappers := disconnectWrapper id s.wrappers }

/-- The in-memory half of `set_config` (mqtt_manager.py 97-98):
`self.configs[user_key] = config` under the lock. -/
def set_config_mem (k : String) (c : BrokerConfig) (s : MgrState) : MgrState :=
  { s with configs := alset k c s.configs }

/-- `ConnectionManager.set_config` (mqtt_manager.py 95-105), run to
completion: store the config in memory (and save it), disconnect any existing
client, then `ensure_connection` under the new config (`ok` is the outcome of
the connect attempt it makes, if any). -/
def set_config (ok : Bool) (k : String) (c : BrokerConfig) (s : MgrState) : MgrState :=
  ensure_connection ok k (disconnect_user k (set_config_mem k c s))

/-- `ConnectionManager.get_client` (mqtt_manager.py 130-132). -/
def get_client (s : MgrState) (k : String) : Option Nat :=
  alookup k s.clients

/-- The manager as constructed (`self.clients = {}`, ghost fields zeroed),
with whatever `_load_configs` returned. -/
def initialMgr (cfgs : List (String × BrokerConfig)) : MgrState :=
  ⟨cfgs, [], [], 0, 0⟩

/-- `ConnectionManager._load_configs` (mqtt_manager.py 67-79), with the file
medium modelled by its read/parse outcome: `none` = `FileNotFoundError`,
`some none` = empty or undecodable content, `some (some m)` = parsed mapping.
Every branch returns a mapping; nothing propagates. -/
def load_configs : Option (Option (List (String × BrokerConfig))) →
    List (String × BrokerConfig)
  | none => []
  | some none => []
  | some (some m) => m

/-- `ConnectionManager.__init__` (mqtt_manager.py 60-65), statement by
statement: bind `config_file`, run `_load_configs`, bind `clients = {}` and
the callback, then evaluate `self.lock = asyncio.Lock()` — whose first step is
resolving the global name `asyncio` in module app.mqtt_manager. -/
def ConnectionManager.init (config_file : String)
    (fileData : Option (Option (List (String × BrokerConfig)))) :
    Except PyExc MgrState :=
  let cfgs := load_configs fileData
  let _self_config_file := config_file
  (resolveGlobal "asyncio").map (fun _ => initialMgr cfgs)

/-- The module-level construction in main.py line 73:
`ConnectionManager(config_file="mqtt_configs.json", on_message_callback=...)`,
for a given state of the config file. -/
def main_module_mqtt_manager
    (fileData : Option (Option (List (String × BrokerConfig)))) :
    Except PyExc MgrState :=
  ConnectionManager.init "mqtt_configs.json" fileData

/-! ## WebSocketManager (main.py 32-58) -/

/-- `self.active_connections : Dict[str, Set[WebSocket]]`: sockets are
identified by `Nat`; a Python set is a duplicate-free list. -/
def HubState : Type := List (String × List Nat)

/-- Adding to a Python set: no effect when already present. -/
def setAdd (x : Nat) (l : List Nat) : List Nat :=
  if x ∈ l then l else l ++ [x]

/-- `WebSocketManager.connect` (main.py 37-42): create the tenant's set if
needed, then add the socket. -/
def ws_connect (k : String) (sock : Nat) (h : HubState) : HubState :=
  match alookup k h with
  | none => alset k (setAdd sock []) h
  | some conns => alset k (setAdd sock conns) h

/-- `WebSocketManager.disconnect` (main.py 44-49): remove the socket when the
tenant and socket are present; delete the tenant's entry if its set becomes
empty. -/
def ws_disconnect (k : String) (sock : Nat) (h : HubState) : HubState :=
  match alookup k h with
  | none => h
  | some conns =>
      if sock ∈ conns then
        let conns' := conns.filter (fun s => !(s == sock))
        if conns'.isEmpty then alerase k h else alset k conns' h
      else h

/-- `WebSocketManager.broadcast_to_user` (main.py 51-58): iterate over a
snapshot (`list(...)`) of the tenant's set; `fails s` says whether
`send_json` raises `WebSocketDisconnect`/`RuntimeError` for socket `s`; a
failing socket is removed from the live set and the loop continues.  Returns
the new hub state and the sockets that received the message, in snapshot
order.  The emptied entry, if any, is not deleted. -/
def broadcast_to_user (fails : Nat → Bool) (k : String) (h : HubState) :
    HubState × List Nat :=
  match alookup k h with
  | none => (h, [])
  | some conns =>
      (alset k (conns.filter (fun s => !(fails s))) h,
       conns.filter (fun s => !(fails s)))

/-- The hub invariant claimed by the spec: a tenant with zero sockets has no
entry in the map. -/
def emptyFree (h : HubState) : Prop :=
  ∀ k conns, alookup k h = some conns → conns ≠ []

/-! ## The config store leg of set_config (for C9) -/

/-- Outcome of the `json.dump` write in `_save_configs`. -/
inductive SaveOutcome : Type where
  | wrote : SaveOutcome
  | failureSwallowed : SaveOutcome
deriving DecidableEq

/-- `ConnectionManager._save_configs` (mqtt_manager.py 81-88): `ioFail` says
whether the file write raises `IOError`.  The `except IOError` arm only logs;
the coroutine returns normally either way, so the first component — what the
caller observes — is `ok` in both cases. -/
def save_configs (ioFail : Bool) : Except PyExc Unit × SaveOutcome :=
  if ioFail then (Except.ok (), SaveOutcome.failureSwallowed)
  else (Except.ok (), SaveOutcome.wrote)

/-- The store half of `set_config` (mqtt_manager.py 97-99):
`self.configs[user_key] = config` under the lock, then `await
self._save_configs()`.  Returns what the caller observes, the durable-storage
outcome, and the new in-memory mapping. -/
def store_set (ioFail : Bool) (k : String) (c : BrokerConfig)
    (configs : List (String × BrokerConfig)) :
    Except PyExc Unit × SaveOutcome × List (String × BrokerConfig) :=
  ((save_configs ioFail).1, (save_configs ioFail).2, alset k c configs)

/-! ## The /api/config-mqtt POST endpoint (main.py 303-318, for C5) -/

/-- What the endpoint returns to the HTTP caller. -/
inductive ApiResult : Type where
  | success (message : String) : ApiResult
  | httpError (status_code : Nat) (detail : String) : ApiResult
deriving DecidableEq

/-- `set_mqtt_config` (main.py 303-318) composed with
`ConnectionManager.set_config`: after `set_config` runs, the endpoint reports
success when `get_client` yields a connected client, else it raises
`Exception("Failed to establish MQTT connection.")`, caught and turned into an
HTTP 400 whose detail is `f"Error: {str(e)}"`.  (The `system_status`
broadcasts it also emits do not change hub, manager or store state.) -/
def set_mqtt_config (ok : Bool) (k : String) (c : BrokerConfig) (s : MgrState) :
    ApiResult × MgrState :=
  let s' := set_config ok k c s
  match get_client s' k with
  | some id =>
      if wrapperIsConnected s'.wrappers id then
        (ApiResult.success "MQTT configuration saved and connected.", s')
      else
        (ApiResult.httpError 400 "Error: Failed to establish MQTT connection.", s')
  | none =>
      (ApiResult.httpError 400 "Error: Failed to establish MQTT connection.", s')

/-! ## Interleavings of manager operations (for C4) -/

/-- One atomic lock-protected manager step.  `set_config` is not atomic: it is
the sequence `setConfMem k c`, `disconnect k`, `ensure ok k`, so arbitrary
interleavings of concurrent `set_config`/`ensure_connection`/
`disconnect_user` calls are exactly the lists of these steps. -/
inductive MgrOp : Type where
  | ensure (ok : Bool) (k : String) : MgrOp
  | disconnect (k : String) : MgrOp
  | setConfMem (k : String) (c : BrokerConfig) : MgrOp

/-- Apply one atomic step. -/
def MgrOp.apply : MgrOp → MgrState → MgrState
  | MgrOp.ensure ok k, s => ensure_connection ok k s
  | MgrOp.disconnect k, s => disconnect_user k s
  | MgrOp.setConfMem k c, s => set_config_mem k c s

/-- Run a sequence of atomic steps (one interleaving). -/
def runOps : List MgrOp → MgrState → MgrState
  | [], s => s
  | op :: rest, s => runOps rest (op.apply s)

/-- Number of live (connected) `MqttClientWrapper` instances for tenant `T`,
over every wrapper ever constructed. -/
def liveLinksFor (T : String) (s : MgrState) : Nat :=
  (s.wrappers.filter (fun w => w.user_key == T && w.is_connected)).length

/-- State well-formedness maintained by the manager: every connected wrapper
is the one `self.clients` stores for its tenant; ghost ids are distinct and
below the supply. -/
def MgrInv (s : MgrState) : Prop :=
  (∀ w ∈ s.wrappers, w.is_connected = true → alookup w.user_key s.clients = some w.id)
  ∧ s.wrappers.Pairwise (fun a b => a.id ≠ b.id)
  ∧ (∀ w ∈ s.wrappers, w.id < s.nextId)
  ∧ (∀ k id, alookup k s.clients = some id → id < s.nextId)

/-! ## The websocket endpoint glue (main.py 272-293, for C10) -/

/-- Combined hub + manager state as the endpoint sees it. -/
structure AppState : Type where
  hub : HubState
  mgr : MgrState

/-- The admission phase of `websocket_endpoint` (main.py 278-283):
`ws_manager.connect`, then `mqtt_manager.ensure_connection`.  The initial
`system_status` broadcast changes neither hub nor manager state. -/
def ws_endpoint_open (ok : Bool) (token : String) (sock : Nat) (s : AppState) :
    AppState :=
  ⟨ws_connect token sock s.hub, ensure_connection ok token s.mgr⟩

/-- The teardown phase of `websocket_endpoint` (main.py 290-293):
`ws_manager.disconnect`, then — when `active_connections.get(token)` is falsy,
i.e. the entry is gone or is an empty set — `mqtt_manager.disconnect_user`. -/
def ws_endpoint_close (token : String) (sock : Nat) (s : AppState) : AppState :=
  let hub' := ws_disconnect token sock s.hub
  let noSocketsLeft :=
    match alookup token hub' with
    | none => true
    | some conns => conns.isEmpty
  ⟨hub', if noSocketsLeft then disconnect_user token s.mgr else s.mgr⟩

/-! ## Helper lemmas about the manager transitions -/

theorem connectedClient_of_lookup_none {s : MgrState} {k : String}
    (h : alookup k s.clients = none) : connectedClient s k = false := by
  simp [connectedClient, h]

theorem ensure_connection_of_connected (ok : Bool) (k : String) (s : MgrState)
    (h : connectedClient s k = true) : ensure_connection ok k s = s := by
  simp [ensure_connection, h]

theorem ensure_connection_attempt (ok : Bool) (k : String) (s : MgrState)
    (hnc : connectedClient s k = false) {c : BrokerConfig}
    (hc : alookup k s.configs = some c) :
    ensure_connection ok k s =
      { configs := s.configs
        clients := if ok then alset k s.nextId s.clients else s.clients
        wrappers := ⟨s.nextId, k, ok⟩ :: s.wrappers
        nextId := s.nextId + 1
        connectAttempts := s.connectAttempts + 1 } := by
  simp [ensure_connection, hnc, hc]

theorem disconnect_user_pop (k : String) (s : MgrState) {id : Nat}
    (h : alookup k s.clients = some id) :
    disconnect_user k s =
      { s with clients := alerase k s.clients
               wrappers := disconnectWrapper id s.wrappers } := by
  simp [disconnect_user, h]

theorem disconnect_user_absent (k : String) (s : MgrState)
    (h : alookup k s.clients = none) : disconnect_user k s = s := by
  simp [disconnect_user, h]

theorem wrapperIsConnected_cons_self (w : Wrapper) (ws : List Wrapper) :
    wrapperIsConnected (w :: ws) w.id = w.is_connected := by
  simp [wrapperIsConnected, List.find?]

theorem wrapperIsConnected_cons_ne {i : Nat} (w : Wrapper) (ws : List Wrapper)
    (h : w.id ≠ i) : wrapperIsConnected (w :: ws) i = wrapperIsConnected ws i := by
  have hb : (w.id == i) = false := by simpa using h
  simp [wrapperIsConnected, List.find?, hb]

theorem wrapperIsConnected_disconnectWrapper_self (id : Nat) (ws : List Wrapper) :
    wrapperIsConnected (disconnectWrapper id ws) id = false := by
  induction ws with
  | nil => rfl
  | cons w t ih =>
      by_cases h : w.id = id
      · simp [disconnectWrapper, wrapperIsConnected, List.find?, h]
      · have hb : (w.id == id) = false := by simpa using h
        simpa [disconnectWrapper, wrapperIsConnected, List.find?, h, hb] using ih

theorem connectedClient_after_attempt (k : String) (s : MgrState)
    (hnc : connectedClient s k = false) {c : BrokerConfig}
    (hc : alookup k s.configs = some c) :
    connectedClient (ensure_connection true k s) k = true := by
  rw [ensure_connection_attempt true k s hnc hc]
  have h1 := wrapperIsConnected_cons_self ⟨s.nextId, k, true⟩ s.wrappers
  simp only [Wrapper.is_connected] at h1
  simp [connectedClient, alookup_alset_self, h1]

theorem find?_eq_of_mem_pairwise {ws : List Wrapper} {w : Wrapper}
    (hmem : w ∈ ws) (hpw : ws.Pairwise (fun a b => a.id ≠ b.id)) :
    ws.find? (fun x => x.id == w.id) = some w := by
  induction ws with
  | nil => cases hmem
  | cons h t ih =>
      rcases List.mem_cons.mp hmem with rfl | hmt
      · simp [List.find?]
      · have hne : h.id ≠ w.id := (List.pairwise_cons.mp hpw).1 w hmt
        have hb : (h.id == w.id) = false := by simpa using hne
        simp only [List.find?, hb]
        exact ih hmt (List.pairwise_cons.mp hpw).2

theorem alookup_alset_some {α : Type} {k k' : String} {v x : α} {l : List (String × α)}
    (h : alookup k' (alset k v l) = some x) :
    (k' = k ∧ x = v) ∨ alookup k' l = some x := by
  by_cases he : k' = k
  · subst he
    rw [alookup_alset_self] at h
    exact Or.inl ⟨rfl, (Option.some_inj.mp h).symm⟩
  · right
    rwa [alookup_alset_ne he] at h

theorem alookup_alerase_some {α : Type} {k k' : String} {x : α} {l : List (String × α)}
    (h : alookup k' (alerase k l) = some x) : alookup k' l = some x := by
  by_cases he : k' = k
  · subst he
    rw [alookup_alerase_self] at h
    cases h
  · rwa [alookup_alerase_ne he] at h

theorem connectedClient_of_wrapper {s : MgrState}
    (hA : ∀ w ∈ s.wrappers, w.is_connected = true → alookup w.user_key s.clients = some w.id)
    (hB : s.wrappers.Pairwise (fun a b => a.id ≠ b.id))
    {w : Wrapper} (hmem : w ∈ s.wrappers) (hconn : w.is_connected = true) :
    connectedClient s w.user_key = true := by
  have hlk := hA w hmem hconn
  have hf := find?_eq_of_mem_pairwise hmem hB
  simp [connectedClient, hlk, wrapperIsConnected, hf, hconn]

theorem mgrInv_apply (op : MgrOp) (s : MgrState) (hinv : MgrInv s) :
    MgrInv (MgrOp.apply op s) := by
  obtain ⟨hA, hB, hC, hD⟩ := hinv
  cases op with
  | ensure ok k =>
      show MgrInv (ensure_connection ok k s)
      by_cases hcc : connectedClient s k = true
      · rw [ensure_connection_of_connected ok k s hcc]
        exact ⟨hA, hB, hC, hD⟩
      · have hcc' : connectedClient s k = false := by
          cases h : connectedClient s k
          · rfl
          · exact absurd h hcc
        cases hcfg : alookup k s.configs with
        | none =>
            have hid : ensure_connection ok k s = s := by
              simp [ensure_connection, hcc', hcfg]
            rw [hid]
            exact ⟨hA, hB, hC, hD⟩
        | some c =>
            rw [ensure_connection_attempt ok k s hcc' hcfg]
            refine ⟨?_, ?_, ?_, ?_⟩
            · intro w hw hconn
              rcases List.mem_cons.mp hw with rfl | hmem
              · have hok : ok = true := hconn
                subst hok
                simp [alookup_alset_self]
              · have hold := hA w hmem hconn
                by_cases hk : w.user_key = k
                · exfalso
                  have hcw := connectedClient_of_wrapper hA hB hmem hconn
                  rw [hk, hcc'] at hcw
                  cases hcw
                · cases ok <;> simp [alookup_alset_ne hk, hold]
            · refine List.pairwise_cons.mpr ⟨?_, hB⟩
              intro w hw
              exact (Nat.ne_of_lt (hC w hw)).symm
            · intro w hw
              rcases List.mem_cons.mp hw with rfl | hmem
              · exact Nat.lt_succ_self _
              · exact Nat.lt_succ_of_lt (hC w hmem)
            · intro kk idd hlk
              cases ok
              · simp only [Bool.false_eq_true, if_false] at hlk
                exact Nat.lt_succ_of_lt (hD kk idd hlk)
              · simp only [if_true] at hlk
                rcases alookup_alset_some hlk with ⟨-, rfl⟩ | hold
                · exact Nat.lt_succ_self _
                · exact Nat.lt_succ_of_lt (hD kk idd hold)
  | disconnect k =>
      show MgrInv (disconnect_user k s)
      cases hlk : alookup k s.clients with
      | none =>
          rw [disconnect_user_absent k s hlk]
          exact ⟨hA, hB, hC, hD⟩
      | some id =>
          rw [disconnect_user_pop k s hlk]
          refine ⟨?_, ?_, ?_, ?_⟩
          · intro w' hw' hconn'
            simp only [disconnectWrapper] at hw'
            rcases List.mem_map.mp hw' with ⟨w, hmem, rfl⟩
            by_cases hid : w.id = id
            · simp [hid] at hconn'
            · simp only [if_neg hid] at hconn' ⊢
              have hold := hA w hmem hconn'
              by_cases hk : w.user_key = k
              · exfalso
                rw [hk] at hold
                rw [hold] at hlk
                exact hid (Option.some_inj.mp hlk)
              · rw [alookup_alerase_ne hk]
                exact hold
          · simp only [disconnectWrapper]
            rw [List.pairwise_map]
            refine hB.imp ?_
            intro a b hab
            by_cases ha : a.id = id
            · by_cases hb : b.id = id
              · exact absurd (ha.trans hb.symm) hab
              · rw [if_pos ha, if_neg hb]; exact hab
            · by_cases hb : b.id = id
              · rw [if_neg ha, if_pos hb]; exact hab
              · rw [if_neg ha, if_neg hb]; exact hab
          · intro w' hw'
            simp only [disconnectWrapper] at hw'
            rcases List.mem_map.mp hw' with ⟨w, hmem, rfl⟩
            have hlt := hC w hmem
            by_cases hid : w.id = id
            · rw [if_pos hid]; exact hlt
            · rw [if_neg hid]; exact hlt
          · intro kk idd h
            exact hD kk idd (alookup_alerase_some h)
  | setConfMem k c =>
      show MgrInv (set_config_mem k c s)
      exact ⟨hA, hB, hC, hD⟩

theorem mgrInv_runOps (ops : List MgrOp) (s : MgrState) (hinv : MgrInv s) :
    MgrInv (runOps ops s) := by
  induction ops generalizing s with
  | nil => exact hinv
  | cons op rest ih => exact ih _ (mgrInv_apply op s hinv)

theorem mgrInv_initial (cfgs : List (String × BrokerConfig)) :
    MgrInv (initialMgr cfgs) := by
  refine ⟨?_, ?_, ?_, ?_⟩ <;> simp [initialMgr, alookup]

theorem liveLinksFor_le_one_of_inv (T : String) (s : MgrState) (hinv : MgrInv s) :
    liveLinksFor T s ≤ 1 := by
  obtain ⟨hA, hB, -, -⟩ := hinv
  have hpf : (s.wrappers.filter (fun w => w.user_key == T && w.is_connected)).Pairwise
      (fun a b => a.id ≠ b.id) :=
    List.Pairwise.sublist (List.filter_sublist _) hB
  cases hfl : s.wrappers.filter (fun w => w.user_key == T && w.is_connected) with
  | nil => simp [liveLinksFor, hfl]
  | cons w1 rest =>
      cases rest with
      | nil => simp [liveLinksFor, hfl]
      | cons w2 rest2 =>
          exfalso
          have hm1 : w1 ∈ s.wrappers.filter (fun w => w.user_key == T && w.is_connected) := by
            rw [hfl]; exact List.mem_cons_self _ _
          have hm2 : w2 ∈ s.wrappers.filter (fun w => w.user_key == T && w.is_connected) := by
            rw [hfl]; exact List.mem_cons_of_mem _ (List.mem_cons_self _ _)
          rw [List.mem_filter] at hm1 hm2
          obtain ⟨hmem1, hp1⟩ := hm1
          obtain ⟨hmem2, hp2⟩ := hm2
          rw [Bool.and_eq_true, beq_iff_eq] at hp1 hp2
          have h1 := hA w1 hmem1 hp1.2
          have h2 := hA w2 hmem2 hp2.2
          rw [hp1.1] at h1
          rw [hp2.1] at h2
          rw [h1] at h2
          rw [hfl] at hpf
          have hne := (List.pairwise_cons.mp hpf).1 w2 (List.mem_cons_self _ _)
          exact hne (Option.some_inj.mp h2)

theorem runOps_replicate_ensure_of_connected (n : Nat) (ok : Bool) (k : String)
    (s : MgrState) (h : connectedClient s k = true) :
    runOps (List.replicate n (MgrOp.ensure ok k)) s = s := by
  induction n with
  | zero => rfl
  | succ m ih =>
      rw [List.replicate_succ]
      show runOps (List.replicate m (MgrOp.ensure ok k)) (ensure_connection ok k s) = s
      rw [ensure_connection_of_connected ok k s h]
      exact ih

theorem connectAttempts_replicate_ensure (n : Nat) (k : String) (s : MgrState)
    (hnc : connectedClient s k = false) {c : BrokerConfig}
    (hc : alookup k s.configs = some c) :
    (runOps (List.replicate (n + 1) (MgrOp.ensure true k)) s).connectAttempts
      = s.connectAttempts + 1 := by
  rw [List.replicate_succ]
  show (runOps (List.replicate n (MgrOp.ensure true k))
    (ensure_connection true k s)).connectAttempts = s.connectAttempts + 1
  rw [runOps_replicate_ensure_of_connected n true k _
    (connectedClient_after_attempt k s hnc hc)]
  rw [ensure_connection_attempt true k s hnc hc]

/-! ## Helper lemmas about the hub -/

theorem setAdd_ne_nil (x : Nat) (l : List Nat) : setAdd x l ≠ [] := by
  by_cases h : x ∈ l
  · simp only [setAdd, if_pos h]
    intro hnil
    rw [hnil] at h
    cases h
  · simp [setAdd, if_neg h]

theorem emptyFree_ws_connect (k : String) (sock : Nat) (h : HubState)
    (hfree : emptyFree h) : emptyFree (ws_connect k sock h) := by
  intro k' conns hlk
  cases hk : alookup k h with
  | none =>
      rw [ws_connect, hk] at hlk
      by_cases he : k' = k
      · subst he
        rw [alookup_alset_self] at hlk
        rw [← Option.some_inj.mp hlk]
        exact setAdd_ne_nil sock []
      · rw [alookup_alset_ne he] at hlk
        exact hfree k' conns hlk
  | some conns0 =>
      rw [ws_connect, hk] at hlk
      by_cases he : k' = k
      · subst he
        rw [alookup_alset_self] at hlk
        rw [← Option.some_inj.mp hlk]
        exact setAdd_ne_nil sock conns0
      · rw [alookup_alset_ne he] at hlk
        exact hfree k' conns hlk

theorem emptyFree_ws_disconnect (k : String) (sock : Nat) (h : HubState)
    (hfree : emptyFree h) : emptyFree (ws_disconnect k sock h) := by
  intro k' conns hlk
  cases hk : alookup k h with
  | none =>
      simp only [ws_disconnect, hk] at hlk
      exact hfree k' conns hlk
  | some conns0 =>
      simp only [ws_disconnect, hk] at hlk
      by_cases hmem : sock ∈ conns0
      · rw [if_pos hmem] at hlk
        cases hnil : (conns0.filter (fun s => !(s == sock))).isEmpty
        · rw [hnil] at hlk
          simp only [Bool.false_eq_true, if_false] at hlk
          by_cases he : k' = k
          · subst he
            rw [alookup_alset_self] at hlk
            rw [← Option.some_inj.mp hlk]
            intro hcontra
            rw [hcontra] at hnil
            cases hnil
          · rw [alookup_alset_ne he] at hlk
            exact hfree k' conns hlk
        · rw [hnil] at hlk
          simp only [if_true] at hlk
          by_cases he : k' = k
          · subst he
            rw [alookup_alerase_self] at hlk
            cases hlk
          · rw [alookup_alerase_ne he] at hlk
            exact hfree k' conns hlk
      · rw [if_neg hmem] at hlk
        exact hfree k' conns hlk

/-! ## Claim theorems -/

/-- C1: the claim requires every inbound broker message to reach the
EventRouter through a thread-safe, non-blocking handoff, with no message
silently dropped.  The code does the opposite: the paho `on_message` lambda
calls the `async def` router callback synchronously on the transport thread,
which only constructs its coroutine — the handoff performs nothing, schedules
nothing, and so silently drops a message whose intended routing is the
non-empty broadcast carried by the coroutine. -/
theorem C1_every_inbound_message_dropped (user_key : String) (msg : MqttMsg) :
    (paho_on_message user_key msg).performed = []
    ∧ (paho_on_message user_key msg).scheduled = []
    ∧ (on_mqtt_message_callback user_key msg).run
        = [Effect.wsBroadcast user_key
            (JVal.obj [("type", JVal.str "mqtt"), ("data", full_message_data msg)])]
    ∧ (on_mqtt_message_callback user_key msg).run ≠ [] := by
  refine ⟨rfl, rfl, rfl, ?_⟩
  intro hc
  cases hc

/-- C2: for every `config_file` argument and every state of the config file,
`ConnectionManager(config_file, on_message_callback)` raises
`NameError("asyncio")`, because `__init__` evaluates `asyncio.Lock()` while
module app.mqtt_manager never imports `asyncio`; hence the module-level
construction of the manager in main.py fails the same way. -/
theorem C2_init_raises_name_error (config_file : String)
    (fileData : Option (Option (List (String × BrokerConfig)))) :
    ConnectionManager.init config_file fileData
      = Except.error (PyExc.nameError "asyncio")
    ∧ main_module_mqtt_manager fileData
      = Except.error (PyExc.nameError "asyncio") := by
  constructor
  · rfl
  · rfl

/-- C3 (amended): the router performs no enrichment at all on an inbound
broker message: it broadcasts `{"type": "mqtt", "data": d}` to tenant T's
sockets with `d` exactly the decoded payload (or
`{"raw_payload": <hex>}` when decoding fails); no `statusText` field and no
time prefix are added, and the wrapping is total (never raises). -/
theorem C3_router_broadcasts_unenriched (user_key : String) (msg : MqttMsg) :
    (∀ d, msg.decoded = some d →
      (on_mqtt_message_callback user_key msg).run
        = [Effect.wsBroadcast user_key
            (JVal.obj [("type", JVal.str "mqtt"), ("data", d)])])
    ∧ (msg.decoded = none →
      (on_mqtt_message_callback user_key msg).run
        = [Effect.wsBroadcast user_key
            (JVal.obj [("type", JVal.str "mqtt"),
              ("data", JVal.obj [("raw_payload", JVal.str msg.payloadHex)])])]) := by
  constructor
  · intro d hd
    simp [on_mqtt_message_callback, full_message_data, hd]
  · intro hd
    simp [on_mqtt_message_callback, full_message_data, hd]

theorem C3_router_broadcasts_unenriched_witness :
    (on_mqtt_message_callback "tenant" ⟨some (JVal.num 5), "35"⟩).run
      = [Effect.wsBroadcast "tenant"
          (JVal.obj [("type", JVal.str "mqtt"), ("data", JVal.num 5)])] :=
  (C3_router_broadcasts_unenriched "tenant" ⟨some (JVal.num 5), "35"⟩).1 (JVal.num 5) rfl

/-- C3 counterexample: a payload whose `data` has `status = 1` and an
integer epoch `timestamp = 1700000000` is broadcast verbatim — the claimed
enrichment never happens: the broadcast `data` is the input object unchanged,
it contains no `statusText` key, and no formatted time prefix was added
anywhere in the message. -/
theorem C3_counterexample :
    (on_mqtt_message_callback "tenant"
        ⟨some (JVal.obj [("status", JVal.num 1), ("timestamp", JVal.num 1700000000)]),
         ""⟩).run
      = [Effect.wsBroadcast "tenant"
          (JVal.obj [("type", JVal.str "mqtt"),
            ("data", JVal.obj [("status", JVal.num 1),
              ("timestamp", JVal.num 1700000000)])])]
    ∧ alookup "statusText"
        [("status", JVal.num 1), ("timestamp", JVal.num 1700000000)] = none := by
  constructor
  · rfl
  · rfl

/-- C6: `broadcast_to_user` iterates over a snapshot of the tenant's socket
set: every non-failing socket of the snapshot receives the event, exactly the
failing sockets are removed from the tenant's live set, and no other tenant's
set is touched. -/
theorem C6_broadcast_partial_failure (fails : Nat → Bool) (k : String)
    (h : HubState) (conns : List Nat) (hk : alookup k h = some conns) :
    (broadcast_to_user fails k h).2 = conns.filter (fun s => !(fails s))
    ∧ alookup k (broadcast_to_user fails k h).1
        = some (conns.filter (fun s => !(fails s)))
    ∧ (∀ k', k' ≠ k → alookup k' (broadcast_to_user fails k h).1 = alookup k' h) := by
  refine ⟨?_, ?_, ?_⟩
  · simp [broadcast_to_user, hk]
  · simp [broadcast_to_user, hk, alookup_alset_self]
  · intro k' hk'
    simp only [broadcast_to_user, hk]
    exact alookup_alset_ne hk' _ _

/-- C6 witness: three sockets 1, 2, 3 of which socket 2 fails — sockets 1 and
3 still receive the event and socket 2 alone is removed from the set. -/
theorem C6_broadcast_partial_failure_witness :
    (broadcast_to_user (fun s => s == 2) "tenant" [("tenant", [1, 2, 3])]).2 = [1, 3]
    ∧ alookup "tenant"
        (broadcast_to_user (fun s => s == 2) "tenant" [("tenant", [1, 2, 3])]).1
      = some [1, 3] := by
  have h := C6_broadcast_partial_failure (fun s => s == 2) "tenant"
    [("tenant", [1, 2, 3])] [1, 2, 3] rfl
  exact ⟨by rw [h.1]; rfl, by rw [h.2.1]; rfl⟩

/-- C7 (amended): after `admit` and `remove` the invariant holds — a tenant
with zero sockets has no entry in the hub's map — but `broadcast` does not
reestablish it: a broadcast that removes failing sockets retains the emptied
set (see the counterexample). -/
theorem C7_admit_remove_preserve_no_empty_sets (k : String) (sock : Nat)
    (h : HubState) (hfree : emptyFree h) :
    emptyFree (ws_connect k sock h) ∧ emptyFree (ws_disconnect k sock h) :=
  ⟨emptyFree_ws_connect k sock h hfree, emptyFree_ws_disconnect k sock h hfree⟩

theorem C7_admit_remove_preserve_no_empty_sets_witness :
    emptyFree (ws_connect "tenant" 1 []) ∧ emptyFree (ws_disconnect "tenant" 1 []) :=
  C7_admit_remove_preserve_no_empty_sets "tenant" 1 []
    (fun _ _ hc => absurd hc (by rw [alookup_nil]; exact Option.noConfusion))

/-- C7 counterexample: admit one socket for a tenant, then broadcast with that
socket failing — the tenant now has zero sockets, yet its entry (an empty
set) is retained in the map, violating the claimed invariant. -/
theorem C7_counterexample :
    ¬ emptyFree (broadcast_to_user (fun _ => true) "tenant"
        (ws_connect "tenant" 1 [])).1 := by
  intro hfree
  exact hfree "tenant" [] rfl rfl

/-- C8: `publish` is a no-op when the link is not connected; when connected it
sends the serialized event to `topics_by_type[event.type]` when that entry
yields a (truthy) topic, else to `publish_topic` when that is truthy, and when
neither source yields a topic the event is silently dropped. -/
theorem C8_publish_topic_resolution (is_connected : Bool) (config : BrokerConfig)
    (data : JVal) :
    (is_connected = false → MqttClientWrapper.publish is_connected config data = none)
    ∧ (∀ topic, is_connected = true →
        topics_by_type_get config.topics_by_type (data.get "type") = some topic →
        topic ≠ "" →
        MqttClientWrapper.publish is_connected config data = some (topic, data))
    ∧ (∀ pt, is_connected = true →
        pyTruthy (topics_by_type_get config.topics_by_type (data.get "type")) = false →
        config.publish_topic = some pt → pt ≠ "" →
        MqttClientWrapper.publish is_connected config data = some (pt, data))
    ∧ (is_connected = true →
        pyTruthy (topics_by_type_get config.topics_by_type (data.get "type")) = false →
        pyTruthy config.publish_topic = false →
        MqttClientWrapper.publish is_connected config data = none) := by
  refine ⟨?_, ?_, ?_, ?_⟩
  · intro h
    simp [MqttClientWrapper.publish, h]
  · intro topic hconn htb hne
    have hbe : (topic == "") = false := beq_eq_false_iff_ne.mpr hne
    have hpt : pyTruthy (some topic) = true := by simp [pyTruthy, hbe]
    subst hconn
    simp [MqttClientWrapper.publish, pyOr, htb, hpt]
  · intro pt hconn hmiss hpub hne
    have hbe : (pt == "") = false := beq_eq_false_iff_ne.mpr hne
    have hpt : pyTruthy (some pt) = true := by simp [pyTruthy, hbe]
    subst hconn
    simp [MqttClientWrapper.publish, pyOr, hmiss, hpub, hpt]
  · intro hconn hmiss hfls
    subst hconn
    simp [MqttClientWrapper.publish, pyOr, hmiss, hfls]

/-- C8 witness, at the three configurations of the claim: type `arrival` with
`topics_by_type = {arrival: x/y}` and `publish_topic = default` goes to
`x/y`; an unknown type goes to `default`; with neither source present publish
is a no-op. -/
theorem C8_publish_topic_resolution_witness :
    MqttClientWrapper.publish true
        ⟨"h", 1883, none, none, none, some "default", [("arrival", "x/y")]⟩
        (JVal.obj [("type", JVal.str "arrival")])
      = some ("x/y", JVal.obj [("type", JVal.str "arrival")])
    ∧ MqttClientWrapper.publish true
        ⟨"h", 1883, none, none, none, some "default", [("arrival", "x/y")]⟩
        (JVal.obj [("type", JVal.str "unknown")])
      = some ("default", JVal.obj [("type", JVal.str "unknown")])
    ∧ MqttClientWrapper.publish true
        ⟨"h", 1883, none, none, none, none, []⟩
        (JVal.obj [("type", JVal.str "arrival")])
      = none := by
  refine ⟨?_, ?_, ?_⟩
  · exact (C8_publish_topic_resolution true
      ⟨"h", 1883, none, none, none, some "default", [("arrival", "x/y")]⟩
      (JVal.obj [("type", JVal.str "arrival")])).2.1 "x/y" rfl rfl (by decide)
  · exact (C8_publish_topic_resolution true
      ⟨"h", 1883, none, none, none, some "default", [("arrival", "x/y")]⟩
      (JVal.obj [("type", JVal.str "unknown")])).2.2.1 "default" rfl rfl rfl (by decide)
  · exact (C8_publish_topic_resolution true
      ⟨"h", 1883, none, none, none, none, []⟩
      (JVal.obj [("type", JVal.str "arrival")])).2.2.2 rfl rfl rfl

/-- C9 (amended): the store's set operation replaces the tenant's config in
memory and then attempts to persist the whole mapping; a persistence failure
is logged and swallowed — the caller observes a normal return either way —
while the in-memory state remains updated. -/
theorem C9_store_set_swallows_save_failure (ioFail : Bool) (k : String)
    (c : BrokerConfig) (configs : List (String × BrokerConfig)) :
    (store_set ioFail k c configs).1 = Except.ok ()
    ∧ alookup k (store_set ioFail k c configs).2.2 = some c
    ∧ (ioFail = true →
        (store_set ioFail k c configs).2.1 = SaveOutcome.failureSwallowed) := by
  refine ⟨?_, ?_, ?_⟩
  · cases ioFail <;> rfl
  · simp [store_set, alookup_alset_self]
  · intro h
    subst h
    rfl

theorem C9_store_set_swallows_save_failure_witness :
    (store_set true "tenant" ⟨"h", 1883, none, none, none, none, []⟩ []).1
      = Except.ok ()
    ∧ alookup "tenant"
        (store_set true "tenant" ⟨"h", 1883, none, none, none, none, []⟩ []).2.2
      = some ⟨"h", 1883, none, none, none, none, []⟩
    ∧ (store_set true "tenant" ⟨"h", 1883, none, none, none, none, []⟩ []).2.1
      = SaveOutcome.failureSwallowed := by
  have h := C9_store_set_swallows_save_failure true "tenant"
    ⟨"h", 1883, none, none, none, none, []⟩ []
  exact ⟨h.1, h.2.1, h.2.2 rfl⟩

/-- C9 counterexample: with the durable write raising `IOError`, `set` still
returns normally to its caller — the failure is logged and swallowed, not
surfaced as a hard error — so the claim that persistence failure is reported
to the caller is false. -/
theorem C9_counterexample :
    (store_set true "tenant" ⟨"h", 1883, none, none, none, none, []⟩ []).2.1
      = SaveOutcome.failureSwallowed
    ∧ (store_set true "tenant" ⟨"h", 1883, none, none, none, none, []⟩ []).1
      = Except.ok () := ⟨rfl, rfl⟩

/-- C4: under every interleaving of atomic manager steps from the freshly
constructed manager, at most one live MqttClientWrapper exists per tenant;
once a connected link exists for a tenant, every further `ensure_connection`
returns immediately with the state unchanged (no new client is created); and
n + 1 lock-serialized `ensure_connection` calls with a config present and a
succeeding broker perform exactly one underlying connect attempt. -/
theorem C4_at_most_one_live_link :
    (∀ (cfgs : List (String × BrokerConfig)) (ops : List MgrOp) (T : String),
        liveLinksFor T (runOps ops (initialMgr cfgs)) ≤ 1)
    ∧ (∀ (ok : Bool) (k : String) (s : MgrState),
        connectedClient s k = true → ensure_connection ok k s = s)
    ∧ (∀ (n : Nat) (k : String) (c : BrokerConfig) (s : MgrState),
        connectedClient s k = false → alookup k s.configs = some c →
        (runOps (List.replicate (n + 1) (MgrOp.ensure true k)) s).connectAttempts
          = s.connectAttempts + 1) := by
  refine ⟨?_, ?_, ?_⟩
  · intro cfgs ops T
    exact liveLinksFor_le_one_of_inv T _ (mgrInv_runOps ops _ (mgrInv_initial cfgs))
  · intro ok k s h
    exact ensure_connection_of_connected ok k s h
  · intro n k c s hnc hc
    exact connectAttempts_replicate_ensure n k s hnc hc

/-- C4 witness: ten `ensure_connection` calls for a configured tenant starting
from the fresh manager leave at most one live link and make exactly one
connect attempt; one further `ensure_connection` on a connected state is the
identity. -/
theorem C4_at_most_one_live_link_witness :
    liveLinksFor "tenant"
        (runOps (List.replicate 10 (MgrOp.ensure true "tenant"))
          (initialMgr [("tenant", ⟨"h", 1883, none, none, none, none, []⟩)])) ≤ 1
    ∧ ensure_connection true "tenant"
        ⟨[], [("tenant", 0)], [⟨0, "tenant", true⟩], 1, 1⟩
      = ⟨[], [("tenant", 0)], [⟨0, "tenant", true⟩], 1, 1⟩
    ∧ (runOps (List.replicate 10 (MgrOp.ensure true "tenant"))
        (initialMgr [("tenant", ⟨"h", 1883, none, none, none, none, []⟩)])).connectAttempts
      = 0 + 1 := by
  refine ⟨?_, ?_, ?_⟩
  · exact C4_at_most_one_live_link.1 _ _ "tenant"
  · exact C4_at_most_one_live_link.2.1 true "tenant" _ rfl
  · exact C4_at_most_one_live_link.2.2 9 "tenant"
      ⟨"h", 1883, none, none, none, none, []⟩ _ rfl rfl

/-- C5: `set_config` first persists the config, then unconditionally
disconnects any existing link for the tenant, then establishes a fresh link
(the wrapper with ghost id `s.nextId`) under the new config; the endpoint
reports success iff the fresh link is connected, and on failure it returns the
descriptive 400 error while the config remains saved. -/
theorem C5_set_config_persists_and_reconnects (ok : Bool) (k : String)
    (c : BrokerConfig) (s : MgrState) (hinv : MgrInv s) :
    alookup k (set_mqtt_config ok k c s).2.configs = some c
    ∧ ((set_mqtt_config ok k c s).1
        = ApiResult.success "MQTT configuration saved and connected." ↔ ok = true)
    ∧ (ok = false → (set_mqtt_config ok k c s).1
        = ApiResult.httpError 400 "Error: Failed to establish MQTT connection.")
    ∧ (∀ oldId, alookup k s.clients = some oldId →
        wrapperIsConnected (set_mqtt_config ok k c s).2.wrappers oldId = false)
    ∧ (ok = true → alookup k (set_mqtt_config ok k c s).2.clients = some s.nextId) := by
  cases hcli : alookup k s.clients with
  | none =>
      have h2 : disconnect_user k (set_config_mem k c s) = set_config_mem k c s :=
        disconnect_user_absent k _ hcli
      have hcc : connectedClient (set_config_mem k c s) k = false :=
        connectedClient_of_lookup_none hcli
      have h3 := ensure_connection_attempt ok k (set_config_mem k c s) hcc
        (alookup_alset_self k c s.configs)
      have hsc : set_config ok k c s
          = { configs := alset k c s.configs
              clients := if ok then alset k s.nextId s.clients else s.clients
              wrappers := ⟨s.nextId, k, ok⟩ :: s.wrappers
              nextId := s.nextId + 1
              connectAttempts := s.connectAttempts + 1 } := by
        show ensure_connection ok k (disconnect_user k (set_config_mem k c s)) = _
        rw [h2, h3]
        rfl
      cases ok with
      | true =>
          have hw : wrapperIsConnected (⟨s.nextId, k, true⟩ :: s.wrappers) s.nextId
              = true :=
            wrapperIsConnected_cons_self ⟨s.nextId, k, true⟩ s.wrappers
          have hres : set_mqtt_config true k c s
              = (ApiResult.success "MQTT configuration saved and connected.",
                 { configs := alset k c s.configs
                   clients := alset k s.nextId s.clients
                   wrappers := ⟨s.nextId, k, true⟩ :: s.wrappers
                   nextId := s.nextId + 1
                   connectAttempts := s.connectAttempts + 1 }) := by
            simp only [set_mqtt_config, hsc, get_client, if_true,
              alookup_alset_self, hw, if_pos]
          refine ⟨?_, ?_, ?_, ?_, ?_⟩
          · rw [hres]
            exact alookup_alset_self k c s.configs
          · rw [hres]
            exact ⟨fun _ => rfl, fun _ => rfl⟩
          · intro hfalse
            cases hfalse
          · intro oldId hold
            cases hold
          · intro _
            rw [hres]
            exact alookup_alset_self k s.nextId s.clients
      | false =>
          have hres : set_mqtt_config false k c s
              = (ApiResult.httpError 400 "Error: Failed to establish MQTT connection.",
                 { configs := alset k c s.configs
                   clients := s.clients
                   wrappers := ⟨s.nextId, k, false⟩ :: s.wrappers
                   nextId := s.nextId + 1
                   connectAttempts := s.connectAttempts + 1 }) := by
            simp only [set_mqtt_config, hsc, get_client, Bool.false_eq_true, if_false,
              hcli]
          refine ⟨?_, ?_, ?_, ?_, ?_⟩
          · rw [hres]
            exact alookup_alset_self k c s.configs
          · rw [hres]
            constructor
            · intro h
              cases h
            · intro h
              cases h
          · intro _
            rw [hres]
          · intro oldId hold
            cases hold
          · intro h
            cases h
  | some oldId0 =>
      have hlt : oldId0 < s.nextId := hinv.2.2.2 k oldId0 hcli
      have hne : s.nextId ≠ oldId0 := Nat.ne_of_gt hlt
      have h2 : disconnect_user k (set_config_mem k c s)
          = { configs := alset k c s.configs
              clients := alerase k s.clients
              wrappers := disconnectWrapper oldId0 s.wrappers
              nextId := s.nextId
              connectAttempts := s.connectAttempts } := by
        rw [disconnect_user_pop k (set_config_mem k c s) hcli]
        rfl
      have hcc : connectedClient (disconnect_user k (set_config_mem k c s)) k
          = false := by
        rw [h2]
        exact connectedClient_of_lookup_none (alookup_alerase_self k s.clients)
      have h3 := ensure_connection_attempt ok k
        (disconnect_user k (set_config_mem k c s)) hcc
        (by rw [h2]; exact alookup_alset_self k c s.configs)
      have hsc : set_config ok k c s
          = { configs := alset k c s.configs
              clients := if ok then alset k s.nextId (alerase k s.clients)
                         else alerase k s.clients
              wrappers := ⟨s.nextId, k, ok⟩ :: disconnectWrapper oldId0 s.wrappers
              nextId := s.nextId + 1
              connectAttempts := s.connectAttempts + 1 } := by
        show ensure_connection ok k (disconnect_user k (set_config_mem k c s)) = _
        rw [h3, h2]
      have hwOld : wrapperIsConnected
          (⟨s.nextId, k, ok⟩ :: disconnectWrapper oldId0 s.wrappers) oldId0 = false := by
        rw [wrapperIsConnected_cons_ne ⟨s.nextId, k, ok⟩ _ hne]
        exact wrapperIsConnected_disconnectWrapper_self oldId0 s.wrappers
      cases ok with
      | true =>
          have hw : wrapperIsConnected
              (⟨s.nextId, k, true⟩ :: disconnectWrapper oldId0 s.wrappers) s.nextId
              = true :=
            wrapperIsConnected_cons_self ⟨s.nextId, k, true⟩ _
          have hres : set_mqtt_config true k c s
              = (ApiResult.success "MQTT configuration saved and connected.",
                 { configs := alset k c s.configs
                   clients := alset k s.nextId (alerase k s.clients)
                   wrappers := ⟨s.nextId, k, true⟩ :: disconnectWrapper oldId0 s.wrappers
                   nextId := s.nextId + 1
                   connectAttempts := s.connectAttempts + 1 }) := by
            simp only [set_mqtt_config, hsc, get_client, if_true,
              alookup_alset_self, hw, if_pos]
          refine ⟨?_, ?_, ?_, ?_, ?_⟩
          · rw [hres]
            exact alookup_alset_self k c s.configs
          · rw [hres]
            exact ⟨fun _ => rfl, fun _ => rfl⟩
          · intro hfalse
            cases hfalse
          · intro oldId hold
            rw [← Option.some_inj.mp hold]
            rw [hres]
            exact hwOld
          · intro _
            rw [hres]
            exact alookup_alset_self k s.nextId (alerase k s.clients)
      | false =>
          have hres : set_mqtt_config false k c s
              = (ApiResult.httpError 400 "Error: Failed to establish MQTT connection.",
                 { configs := alset k c s.configs
                   clients := alerase k s.clients
                   wrappers := ⟨s.nextId, k, false⟩ :: disconnectWrapper oldId0 s.wrappers
                   nextId := s.nextId + 1
                   connectAttempts := s.connectAttempts + 1 }) := by
            simp only [set_mqtt_config, hsc, get_client, Bool.false_eq_true, if_false,
              alookup_alerase_self]
          refine ⟨?_, ?_, ?_, ?_, ?_⟩
          · rw [hres]
            exact alookup_alset_self k c s.configs
          · rw [hres]
            constructor
            · intro h
              cases h
            · intro h
              cases h
          · intro _
            rw [hres]
          · intro oldId hold
            rw [← Option.some_inj.mp hold]
            rw [hres]
            exact hwOld
          · intro h
            cases h

theorem C5_set_config_persists_and_reconnects_witness :
    alookup "tenant" (set_mqtt_config true "tenant"
        ⟨"h", 1883, none, none, none, none, []⟩ (initialMgr [])).2.configs
      = some ⟨"h", 1883, none, none, none, none, []⟩
    ∧ (set_mqtt_config true "tenant"
        ⟨"h", 1883, none, none, none, none, []⟩ (initialMgr [])).1
      = ApiResult.success "MQTT configuration saved and connected." := by
  have h := C5_set_config_persists_and_reconnects true "tenant"
    ⟨"h", 1883, none, none, none, none, []⟩ (initialMgr []) (mgrInv_initial [])
  exact ⟨h.1, h.2.1.mpr rfl⟩

/-- C10: from a state where tenant T has no sockets and no client but has a
config, admitting socket S1 creates a fresh connected link (the wrapper with
ghost id `s.mgr.nextId`); closing S1 removes T's socket and, T now having
zero sockets, disconnects and removes the link; admitting a later socket S2
creates a new link (a different wrapper, ghost id `s.mgr.nextId + 1`),
connected again. -/
theorem C10_idle_teardown (T : String) (c : BrokerConfig) (s : AppState)
    (n1 n2 : Nat)
    (hhub : alookup T s.hub = none)
    (hcli : alookup T s.mgr.clients = none)
    (hcfg : alookup T s.mgr.configs = some c) :
    (alookup T (ws_endpoint_open true T n1 s).mgr.clients = some s.mgr.nextId
      ∧ wrapperIsConnected (ws_endpoint_open true T n1 s).mgr.wrappers
          s.mgr.nextId = true)
    ∧ (alookup T (ws_endpoint_close T n1 (ws_endpoint_open true T n1 s)).mgr.clients
          = none
      ∧ wrapperIsConnected
          (ws_endpoint_close T n1 (ws_endpoint_open true T n1 s)).mgr.wrappers
          s.mgr.nextId = false)
    ∧ (alookup T (ws_endpoint_open true T n2
          (ws_endpoint_close T n1 (ws_endpoint_open true T n1 s))).mgr.clients
          = some (s.mgr.nextId + 1)
      ∧ wrapperIsConnected (ws_endpoint_open true T n2
          (ws_endpoint_close T n1 (ws_endpoint_open true T n1 s))).mgr.wrappers
          (s.mgr.nextId + 1) = true
      ∧ s.mgr.nextId + 1 ≠ s.mgr.nextId) := by
  have hnc1 : connectedClient s.mgr T = false := connectedClient_of_lookup_none hcli
  have hm1 : ensure_connection true T s.mgr
      = { configs := s.mgr.configs
          clients := alset T s.mgr.nextId s.mgr.clients
          wrappers := ⟨s.mgr.nextId, T, true⟩ :: s.mgr.wrappers
          nextId := s.mgr.nextId + 1
          connectAttempts := s.mgr.connectAttempts + 1 } := by
    rw [ensure_connection_attempt true T s.mgr hnc1 hcfg]
    rfl
  have hlk1 : alookup T (ws_connect T n1 s.hub) = some (setAdd n1 []) := by
    simp only [ws_connect, hhub]
    exact alookup_alset_self T (setAdd n1 []) s.hub
  have hafter : alookup T (ws_disconnect T n1 (ws_connect T n1 s.hub)) = none := by
    simp only [ws_disconnect, hlk1, setAdd, List.not_mem_nil, if_false,
      List.nil_append]
    simp [alookup_alerase_self, alookup_alset_self]
  have hclose_mgr : (ws_endpoint_close T n1 (ws_endpoint_open true T n1 s)).mgr
      = disconnect_user T (ensure_connection true T s.mgr) := by
    simp only [ws_endpoint_close, ws_endpoint_open]
    rw [hafter]
    rfl
  have hm2 : disconnect_user T (ensure_connection true T s.mgr)
      = { configs := s.mgr.configs
          clients := alerase T (alset T s.mgr.nextId s.mgr.clients)
          wrappers := disconnectWrapper s.mgr.nextId
            (⟨s.mgr.nextId, T, true⟩ :: s.mgr.wrappers)
          nextId := s.mgr.nextId + 1
          connectAttempts := s.mgr.connectAttempts + 1 } := by
    rw [hm1]
    rw [disconnect_user_pop T _ (alookup_alset_self T s.mgr.nextId s.mgr.clients)]
  have hnc2 : connectedClient (disconnect_user T (ensure_connection true T s.mgr)) T
      = false := by
    rw [hm2]
    exact connectedClient_of_lookup_none
      (alookup_alerase_self T (alset T s.mgr.nextId s.mgr.clients))
  have hcfg2 : alookup T (disconnect_user T (ensure_connection true T s.mgr)).configs
      = some c := by
    rw [hm2]
    exact hcfg
  have hm3 : ensure_connection true T (disconnect_user T (ensure_connection true T s.mgr))
      = { configs := s.mgr.configs
          clients := alset T (s.mgr.nextId + 1)
            (alerase T (alset T s.mgr.nextId s.mgr.clients))
          wrappers := ⟨s.mgr.nextId + 1, T, true⟩ ::
            disconnectWrapper s.mgr.nextId
              (⟨s.mgr.nextId, T, true⟩ :: s.mgr.wrappers)
          nextId := s.mgr.nextId + 1 + 1
          connectAttempts := s.mgr.connectAttempts + 1 + 1 } := by
    rw [ensure_connection_attempt true T _ hnc2 hcfg2, hm2]
    rfl
  refine ⟨⟨?_, ?_⟩, ⟨?_, ?_⟩, ?_, ?_, ?_⟩
  · show alookup T (ensure_connection true T s.mgr).clients = some s.mgr.nextId
    rw [hm1]
    exact alookup_alset_self T s.mgr.nextId s.mgr.clients
  · show wrapperIsConnected (ensure_connection true T s.mgr).wrappers s.mgr.nextId
      = true
    rw [hm1]
    exact wrapperIsConnected_cons_self ⟨s.mgr.nextId, T, true⟩ s.mgr.wrappers
  · rw [hclose_mgr, hm2]
    exact alookup_alerase_self T (alset T s.mgr.nextId s.mgr.clients)
  · rw [hclose_mgr, hm2]
    exact wrapperIsConnected_disconnectWrapper_self s.mgr.nextId _
  · show alookup T (ensure_connection true T
        (ws_endpoint_close T n1 (ws_endpoint_open true T n1 s)).mgr).clients
      = some (s.mgr.nextId + 1)
    rw [hclose_mgr, hm3]
    exact alookup_alset_self T (s.mgr.nextId + 1) _
  · show wrapperIsConnected (ensure_connection true T
        (ws_endpoint_close T n1 (ws_endpoint_open true T n1 s)).mgr).wrappers
        (s.mgr.nextId + 1) = true
    rw [hclose_mgr, hm3]
    exact wrapperIsConnected_cons_self ⟨s.mgr.nextId + 1, T, true⟩ _
  · exact Nat.succ_ne_self s.mgr.nextId

theorem C10_idle_teardown_witness :
    alookup "tenant" (ws_endpoint_open true "tenant" 1
        ⟨[], ⟨[("tenant", ⟨"h", 1883, none, none, none, none, []⟩)], [], [], 0, 0⟩⟩).mgr.clients
      = some 0
    ∧ alookup "tenant" (ws_endpoint_close "tenant" 1 (ws_endpoint_open true "tenant" 1
        ⟨[], ⟨[("tenant", ⟨"h", 1883, none, none, none, none, []⟩)], [], [], 0, 0⟩⟩)).mgr.clients
      = none
    ∧ alookup "tenant" (ws_endpoint_open true "tenant" 2
        (ws_endpoint_close "tenant" 1 (ws_endpoint_open true "tenant" 1
          ⟨[], ⟨[("tenant", ⟨"h", 1883, none, none, none, none, []⟩)], [], [], 0, 0⟩⟩))).mgr.clients
      = some 1 := by
  have h := C10_idle_teardown "tenant" ⟨"h", 1883, none, none, none, none, []⟩
    ⟨[], ⟨[("tenant", ⟨"h", 1883, none, none, none, none, []⟩)], [], [], 0, 0⟩⟩
    1 2 rfl rfl rfl
  exact ⟨h.1.1, h.2.1.1, h.2.2.1⟩
